import Mathlib

/-!
Verification of the pythiags video recorder subsystem.

This file shallowly embeds the recorder core of the repository:

* pythiags/background.py        (PostponedBackgroundThread, run_later)
* pythiags/recorder/recorder.py (VideoRecorder state machine)
* pythiags/recorder/ring_buffer.py (RingBuffer)
* pythiags/recorder/record_bin.py  (RecordBin)

Python enum.IntFlag values are embedded as Nat bitmasks, Python floats
and time values as rationals, fallible code as Except, and the
concurrent callback structure as an explicit step relation on a
composite state record.
-/

set_option autoImplicit false

namespace Pythiags

/-! ### enum.IntFlag semantics -/

/-- Python enum.Flag membership test: for IntFlag values, x in mask holds
iff every bit of x is contained in mask. -/
def flagIn (x mask : Nat) : Bool := x.land mask == x

/-! ### VideoRecorder States (recorder.py, class States(enum.IntFlag)) -/

def DETTACHED : Nat := 0

def BUFFERING : Nat := 1

def STARTING : Nat := 2

def RECORDING : Nat := 4

def FINISHING : Nat := 8

/-! ### PostponedBackgroundThread (background.py) -/

/-- PostponedBackgroundThread.States bit values (enum.IntFlag). -/
def PB_IDLE : Nat := 0

def PB_WAITING : Nat := 1

def PB_RUNNING : Nat := 2

def PB_CANCELLED : Nat := 4

def PB_SUCCEEDED : Nat := 8

def PB_FAILED : Nat := 16

/-- State of a PostponedBackgroundThread: the delay it was created with,
its States bitmask, and its private cancelled flag. -/
structure PBThread where
  delay : ℚ
  state : Nat
  cancelled : Bool
deriving DecidableEq

/-- Embeds PostponedBackgroundThread.cancel: when WAITING is not in the
state bitmask a CancelNotInWaiting is raised before any assignment runs,
so the error branch carries no mutated thread; otherwise the cancelled
flag is set and the CANCELLED bit is or-ed into the state. -/
def PBThread.cancel (t : PBThread) : Except Unit PBThread :=
  if flagIn PB_WAITING t.state then
    Except.ok { t with cancelled := true, state := t.state.lor PB_CANCELLED }
  else
    Except.error ()

/-- A thread returned by run_later: it enters WAITING, sleeps for its
delay, then invokes the callback.  issuedAt records the instant
run_later was called, so the callback fires at issuedAt + delay. -/
structure ScheduledTimer where
  issuedAt : ℚ
  thread : PBThread
deriving DecidableEq

/-- Embeds run_later(cb, delay) called at instant now: the returned
thread is started immediately and sits in its waiting phase. -/
def runLater (now delay : ℚ) : ScheduledTimer :=
  { issuedAt := now
    thread := { delay := delay, state := PB_WAITING, cancelled := false } }

/-- The instant at which a scheduled thread leaves its sleep and runs
its callback (PostponedBackgroundThread.run sleeps for delay). -/
def ScheduledTimer.fireTime (t : ScheduledTimer) : ℚ :=
  t.issuedAt + t.thread.delay

/-- Embeds VideoRecorder.reset_stop_recording_timer: arm the debounce
timer with run_later(self.__on_window_timeout, 2 * window_size_sec). -/
def resetStopRecordingTimer (windowSizeSec now : ℚ) : ScheduledTimer :=
  runLater now (2 * windowSizeSec)

/-- Observable actions of the stop_recording_timer setter, in program
order: the cancel attempt on the previous timer precedes installing the
new value. -/
inductive SetterAction
  | cancelOld
  | install
deriving DecidableEq

/-- Result of running the stop_recording_timer property setter. -/
structure SetterResult where
  /-- the previously stored timer after the cancel attempt -/
  old : Option PBThread
  /-- the recorder's stop_recording_timer slot afterwards -/
  slot : Option PBThread
  /-- true iff a CancelNotInWaiting was raised and caught by the bare
  `except CancelNotInWaiting: pass` clause: nothing is logged or
  re-raised in that branch -/
  swallowedCancelError : Bool
  /-- actions performed, in program order -/
  actions : List SetterAction
deriving DecidableEq

/-- Embeds the VideoRecorder.stop_recording_timer setter: if a timer is
stored, try to cancel it, silently ignoring CancelNotInWaiting; then
store the new value. -/
def setStopRecordingTimer (cur value : Option PBThread) : SetterResult :=
  match cur with
  | none =>
      { old := none, slot := value, swallowedCancelError := false
        actions := [SetterAction.install] }
  | some t =>
      match t.cancel with
      | Except.ok t2 =>
          { old := some t2, slot := value, swallowedCancelError := false
            actions := [SetterAction.cancelOld, SetterAction.install] }
      | Except.error _ =>
          { old := some t, slot := value, swallowedCancelError := true
            actions := [SetterAction.cancelOld, SetterAction.install] }

/-! ### RingBuffer (ring_buffer.py) -/

/-- A frame is an opaque Gst.Buffer; we model it by an identifier. -/
abbrev Frame := Nat

/-- A Python collections.deque created with a maxlen bound.  Items are
kept oldest-first: append adds at the right, eviction drops the
leftmost element. -/
structure BDeque (α : Type) where
  maxlen : Nat
  items : List α
deriving DecidableEq

/-- Embeds deque.append on a bounded deque: with maxlen = 0 the deque
stays empty; below capacity the item is appended; at capacity the
oldest (leftmost) item is discarded and the new one appended. -/
def BDeque.append {α : Type} (d : BDeque α) (x : α) : BDeque α :=
  if d.maxlen = 0 then { d with items := [] }
  else if d.items.length < d.maxlen then { d with items := d.items ++ [x] }
  else { d with items := d.items.drop 1 ++ [x] }

/-- Gst.FlowReturn values produced by the appsink callback. -/
inductive FlowReturn
  | ok
  | error
deriving DecidableEq

/-- Embeds RingBuffer.__on_new_sample: pulling an empty sample returns
FlowReturn.ERROR and leaves the deque untouched; otherwise the pulled
buffer is appended to the deque and FlowReturn.OK is returned. -/
def onNewSample {α : Type} (d : BDeque α) (sample : Option α) :
    BDeque α × FlowReturn :=
  match sample with
  | none => (d, FlowReturn.error)
  | some buffer => (d.append buffer, FlowReturn.ok)

/-- Embeds the capacity computation in RingBuffer.__initialize_deque:
rinbugger_len = math.ceil(window_size_sec * framerate). -/
def ringbufferLen (windowSizeSec framerate : ℚ) : ℤ :=
  Int.ceil (windowSizeSec * framerate)

/-- Embeds RingBuffer.__initialize_deque: read the framerate fraction
from the appsink pad's negotiated caps (None models a missing or
unreadable fraction, a zero denominator models the ZeroDivisionError
path; both are caught and routed to on_bind_failure).  On success the
capacity and the framerate are handed to the bind-success callback. -/
def initializeDeque (windowSizeSec : ℚ) (capsFramerate : Option (ℤ × ℤ)) :
    Except String (ℤ × ℚ) :=
  match capsFramerate with
  | none =>
      Except.error "Unable to get framerate in order to initialize ringbuffer"
  | some (num, den) =>
      if den = 0 then
        Except.error "Unable to get framerate in order to initialize ringbuffer"
      else
        let framerate : ℚ := (num : ℚ) / (den : ℚ)
        Except.ok (ringbufferLen windowSizeSec framerate, framerate)

/-! ### VideoRecorder ringbuffer callbacks (recorder.py) -/

/-- Recorder-side data produced by a successful ring buffer bind. -/
structure RingbufferBindOk where
  state : Nat
  deque : BDeque Frame
  framerate : ℚ
deriving DecidableEq

/-- Embeds VideoRecorder._on_ringbuffer_bound: raise NotImplementedError
unless the state is DETTACHED; otherwise create the frame deque with
maxlen = rinbugger_len, move to BUFFERING and store the framerate.  A
negative maxlen would raise ValueError inside collections.deque. -/
def onRingbufferBound (st : Nat) (rinbuggerLen : ℤ) (framerate : ℚ) :
    Except String RingbufferBindOk :=
  if st ≠ DETTACHED then Except.error "NotImplementedError"
  else if rinbuggerLen < 0 then Except.error "ValueError"
  else
    Except.ok
      { state := BUFFERING
        deque := { maxlen := rinbuggerLen.toNat, items := [] }
        framerate := framerate }

/-! ### Debounce timer firing (VideoRecorder.__on_window_timeout) -/

/-- Outcome of the debounce-timer callback. -/
inductive TimeoutOutcome
  | unhandledState
  | noopBuffering
  | finishAndSendEos
deriving DecidableEq

/-- Embeds VideoRecorder.__on_window_timeout: raise NotImplementedError
when the state is not contained in BUFFERING|RECORDING (IntFlag
membership); in BUFFERING clear the timer and return; otherwise move to
FINISHING and call record_bin.send_eos(). -/
def onWindowTimeout (st : Nat) : TimeoutOutcome :=
  if ¬ flagIn st (BUFFERING.lor RECORDING) then TimeoutOutcome.unhandledState
  else if st == BUFFERING then TimeoutOutcome.noopBuffering
  else TimeoutOutcome.finishAndSendEos

/-! ### Record bin callbacks (recorder.py) -/

/-- Embeds VideoRecorder._on_recordbin_bound (run when the first buffer
reaches the record bin's filesink): the state is first rewritten to
(state and not STARTING) or RECORDING — the IntFlag complement of
STARTING inside the universe of declared bits is 13 — and only then
checked; the returned Bool is false when the check raises
NotImplementedError (note the state write has already happened). -/
def onRecordbinBound (st : Nat) : Nat × Bool :=
  let st2 := (st.land 13).lor RECORDING
  (st2, st2 == RECORDING)

/-- Observable effects of VideoRecorder._on_recordbin_eos, in program
order.  recordRuntime never occurs in the code; it is part of the
effect vocabulary only so the handler can be compared against the
specification's description of on_finished. -/
inductive EosEffect
  | setState (st : Nat)
  | scheduleOnFinished (loc : Option String)
  | recordRuntime
deriving DecidableEq

/-- Embeds VideoRecorder._on_recordbin_eos: if the state is RECORDING
(the record bin received EOS internally) move to FINISHING first; any
state other than FINISHING then raises NotImplementedError; finally the
state becomes BUFFERING and, when a caller callback was registered,
on_video_finished is scheduled asynchronously with the location. -/
def onRecordbinEos (st : Nat) (callbackSet : Bool) (loc : Option String) :
    Except String (List EosEffect) :=
  let pre : List EosEffect × Nat :=
    if st == RECORDING then ([EosEffect.setState FINISHING], FINISHING)
    else ([], st)
  if pre.2 ≠ FINISHING then Except.error "Unhandled state"
  else
    Except.ok
      (pre.1 ++ [EosEffect.setState BUFFERING] ++
        (if callbackSet then [EosEffect.scheduleOnFinished loc] else []))

/-- Modelled from the spec: "WriterSession on_finished(output_location):
transition Finishing → Buffering; invoke the caller's
on_finished(output_location) asynchronously; record the segment's
actual runtime."  Used only to compare the code's effect list against
the specification. -/
def specOnFinishedEffects (loc : Option String) : List EosEffect :=
  [EosEffect.setState BUFFERING, EosEffect.scheduleOnFinished loc,
    EosEffect.recordRuntime]

/-! ### Synchronous record() polling loop (VideoRecorder.record) -/

/-- Embeds the elapsed-time check of the polling loop in
VideoRecorder.record: the code computes
(t0 - datetime.now()).total_seconds() > max_delay_sec, with t0 taken
before the loop, i.e. it compares t0 - now (not now - t0) against the
bound. -/
def recordTimedOut (t0 now maxDelaySec : ℚ) : Bool :=
  decide (maxDelaySec < t0 - now)

/-- Outcome of one polling iteration of VideoRecorder.record. -/
inductive PollOutcome
  | timeoutError
  | located (loc : String)
  | stillPolling
deriving DecidableEq

/-- One iteration of the while-loop in VideoRecorder.record: after the
sleep, raise TimeoutError when the elapsed-time check fires, otherwise
try record_bin.filesink_location and return it; any exception there is
logged and swallowed and the loop continues. -/
def recordPollStep (t0 maxDelaySec now : ℚ) (filesinkLocation : Option String) :
    PollOutcome :=
  if recordTimedOut t0 now maxDelaySec then PollOutcome.timeoutError
  else
    match filesinkLocation with
    | some loc => PollOutcome.located loc
    | none => PollOutcome.stillPolling

/-- The polling loop of VideoRecorder.record run for a bounded number of
iterations: clock n is the instant at which iteration n performs its
check, locAt n the filesink location available to it (None meaning the
lookup raised).  Returns the first decisive outcome among the first
fuel iterations. -/
def recordPoll (t0 maxDelaySec : ℚ) (clock : Nat → ℚ)
    (locAt : Nat → Option String) : Nat → PollOutcome
  | 0 => PollOutcome.stillPolling
  | Nat.succ n =>
      match recordPoll t0 maxDelaySec clock locAt n with
      | PollOutcome.stillPolling =>
          recordPollStep t0 maxDelaySec (clock n) (locAt n)
      | r => r

/-! ### RecordBin bind/cleanup (record_bin.py) -/

/-- State of the single RecordBin owned by a VideoRecorder: the pipeline
it is bound to (None when unbound) and the number of output branches
currently attached through it. -/
structure RecordBinSt where
  pipeline : Option Nat
  sessions : Nat
deriving DecidableEq

/-- The RecordBin as constructed by RecordBin.__init__: unbound. -/
def RecordBin.initial : RecordBinSt := { pipeline := none, sessions := 0 }

/-- Embeds the rebind guard of RecordBin.bind: when self.pipeline is
already set the call raises ValueError("Already bound!") before any
attachment happens; otherwise the pipeline is stored and one new output
branch is attached. -/
def RecordBin.bind (rb : RecordBinSt) (pipeline : Nat) :
    Except String RecordBinSt :=
  match rb.pipeline with
  | some _ => Except.error "Already bound!"
  | none => Except.ok { pipeline := some pipeline, sessions := rb.sessions + 1 }

/-- Embeds RecordBin.cleanup: after EOS teardown the record bin and the
pipeline references are dropped, detaching the output branch. -/
def RecordBin.cleanup (rb : RecordBinSt) : RecordBinSt :=
  { pipeline := none, sessions := rb.sessions - 1 }

/-- Events the RecordBin can undergo: a successful bind, a failed bind
attempt (raising, hence changing nothing), and the EOS-triggered
cleanup of a bound bin. -/
inductive RBStep : RecordBinSt → RecordBinSt → Prop
  | bindOk (rb : RecordBinSt) (p : Nat) (rb2 : RecordBinSt) :
      RecordBin.bind rb p = Except.ok rb2 → RBStep rb rb2
  | bindFail (rb : RecordBinSt) (p : Nat) (e : String) :
      RecordBin.bind rb p = Except.error e → RBStep rb rb
  | doCleanup (rb : RecordBinSt) :
      rb.pipeline.isSome = true → RBStep rb (RecordBin.cleanup rb)

/-- RecordBin states reachable from construction. -/
inductive RBReachable : RecordBinSt → Prop
  | init : RBReachable RecordBin.initial
  | step {a b : RecordBinSt} : RBReachable a → RBStep a b → RBReachable b

/-! ### VideoRecorder state machine (recorder.py) -/

/-- Composite recorder state: the States bitmask, whether the RecordBin
is bound, whether a debounce timer is in its waiting phase, and whether
the record bin's first-frame probe is still pending. -/
structure Sys where
  st : Nat
  binBound : Bool
  timerArmed : Bool
  firstOutPending : Bool
deriving DecidableEq

/-- The recorder as constructed by VideoRecorder.__init__. -/
def Sys.initial : Sys :=
  { st := DETTACHED, binBound := false, timerArmed := false
    firstOutPending := false }

/-- Recoverable embedding of the exceptions record_bg can surface. -/
inductive RecError
  | alreadyBound
  | unhandledState
deriving DecidableEq

/-- Embeds VideoRecorder.record_bg: dispatch on the exact current state.
DETTACHED and FINISHING reschedule the call and change nothing;
BUFFERING re-arms the timer, rewrites the state with
(state and not BUFFERING) or STARTING and then calls RecordBin.bind —
when the bin is already bound, bind raises after those writes (second
component alreadyBound), otherwise the bin becomes bound and its
first-frame probe pending; STARTING and RECORDING only re-arm the
timer; any other state raises NotImplementedError via the dispatch
KeyError. -/
def recordDispatch (s : Sys) : Sys × Option RecError :=
  if s.st = DETTACHED then (s, none)
  else if s.st = BUFFERING then
    let s1 : Sys := { s with timerArmed := true, st := (s.st.land 14).lor STARTING }
    if s.binBound then (s1, some RecError.alreadyBound)
    else ({ s1 with binBound := true, firstOutPending := true }, none)
  else if s.st = STARTING then ({ s with timerArmed := true }, none)
  else if s.st = RECORDING then ({ s with timerArmed := true }, none)
  else if s.st = FINISHING then (s, none)
  else (s, some RecError.unhandledState)

/-- State update performed by the debounce timer firing: the firing
thread leaves its waiting phase in every case; the handler additionally
moves the state to FINISHING when it decides to send end-of-segment
(on the unhandled branch it raises before touching the state). -/
def applyWindowTimeout (s : Sys) : Sys :=
  match onWindowTimeout s.st with
  | TimeoutOutcome.unhandledState => { s with timerArmed := false }
  | TimeoutOutcome.noopBuffering => { s with timerArmed := false }
  | TimeoutOutcome.finishAndSendEos =>
      { s with st := FINISHING, timerArmed := false }

/-- Interleaving semantics of the recorder's callbacks: each constructor
is one handler run atomically.  Exceptions kill the background thread
that raised them and change nothing beyond what the handler had already
written. -/
inductive Step : Sys → Sys → Prop
  | ringbufferBound (s : Sys) :
      s.st = DETTACHED → Step s { s with st := BUFFERING }
  | trigger (s : Sys) : Step s (recordDispatch s).1
  | firstFrameOut (s : Sys) :
      s.firstOutPending = true →
      Step s { s with st := (onRecordbinBound s.st).1, firstOutPending := false }
  | timerFire (s : Sys) :
      s.timerArmed = true → Step s (applyWindowTimeout s)
  | recordbinEosRecording (s : Sys) :
      s.binBound = true → s.st = RECORDING →
      Step s { s with st := BUFFERING, binBound := false, firstOutPending := false }
  | recordbinEosFinishing (s : Sys) :
      s.binBound = true → s.st = FINISHING →
      Step s { s with st := BUFFERING, binBound := false, firstOutPending := false }
  | recordbinEosEarly (s : Sys) :
      s.binBound = true → s.st = STARTING →
      Step s { s with binBound := false, firstOutPending := false }

/-- Recorder states reachable from construction. -/
inductive Reachable : Sys → Prop
  | init : Reachable Sys.initial
  | step {a b : Sys} : Reachable a → Step a b → Reachable b

/-! ### Helper lemmas -/

/-- Inductive invariant of the recorder state machine: the first-frame
probe only waits while the recorder is STARTING, and an armed debounce
timer implies the recorder is BUFFERING, STARTING or RECORDING. -/
def SysInv (s : Sys) : Prop :=
  (s.firstOutPending = true → s.st = STARTING) ∧
  (s.timerArmed = true →
    s.st = BUFFERING ∨ s.st = STARTING ∨ s.st = RECORDING)

lemma sysInv_initial : SysInv Sys.initial := by
  constructor <;> intro h <;> simp [Sys.initial] at h

lemma sysInv_step {a b : Sys} (ha : SysInv a) (hs : Step a b) : SysInv b := by
  obtain ⟨hp, ht⟩ := ha
  cases hs with
  | ringbufferBound h =>
      refine ⟨fun hx => ?_, fun _ => Or.inl rfl⟩
      have h2 := hp hx
      rw [h] at h2
      exact absurd h2 (by decide)
  | trigger =>
      unfold recordDispatch
      dsimp only
      split_ifs with h0 h1 hbd h2 h4 h8
      · exact ⟨hp, ht⟩
      · refine ⟨fun _ => ?_, fun _ => Or.inr (Or.inl ?_)⟩ <;>
          · show (a.st.land 14).lor STARTING = STARTING
            rw [h1]
            decide
      · refine ⟨fun _ => ?_, fun _ => Or.inr (Or.inl ?_)⟩ <;>
          · show (a.st.land 14).lor STARTING = STARTING
            rw [h1]
            decide
      · exact ⟨fun hx => hp hx, fun _ => Or.inr (Or.inl h2)⟩
      · exact ⟨fun hx => hp hx, fun _ => Or.inr (Or.inr h4)⟩
      · exact ⟨hp, ht⟩
      · exact ⟨hp, ht⟩
  | firstFrameOut h =>
      have hst := hp h
      refine ⟨fun hx => by simp at hx, fun _ => Or.inr (Or.inr ?_)⟩
      show (onRecordbinBound a.st).1 = RECORDING
      rw [hst]; decide
  | timerFire h =>
      rcases ht h with hb | hb | hb
      · have ho : onWindowTimeout BUFFERING = TimeoutOutcome.noopBuffering := by
          decide
        have hw : applyWindowTimeout a = { a with timerArmed := false } := by
          unfold applyWindowTimeout
          rw [hb, ho]
        rw [hw]
        exact ⟨fun hx => hp hx, fun hx => by simp at hx⟩
      · have ho : onWindowTimeout STARTING = TimeoutOutcome.unhandledState := by
          decide
        have hw : applyWindowTimeout a = { a with timerArmed := false } := by
          unfold applyWindowTimeout
          rw [hb, ho]
        rw [hw]
        exact ⟨fun hx => hp hx, fun hx => by simp at hx⟩
      · have ho : onWindowTimeout RECORDING = TimeoutOutcome.finishAndSendEos := by
          decide
        have hw : applyWindowTimeout a =
            { a with st := FINISHING, timerArmed := false } := by
          unfold applyWindowTimeout
          rw [hb, ho]
        rw [hw]
        refine ⟨fun hx => ?_, fun hx => by simp at hx⟩
        have h2 := hp hx
        rw [hb] at h2
        exact absurd h2 (by decide)
  | recordbinEosRecording h1 h2 =>
      exact ⟨fun hx => by simp at hx, fun _ => Or.inl rfl⟩
  | recordbinEosFinishing h1 h2 =>
      exact ⟨fun hx => by simp at hx, fun _ => Or.inl rfl⟩
  | recordbinEosEarly h1 h2 =>
      exact ⟨fun hx => by simp at hx, fun hx => ht hx⟩

lemma reachable_sysInv {s : Sys} (h : Reachable s) : SysInv s := by
  induction h with
  | init => exact sysInv_initial
  | step _ hs ih => exact sysInv_step ih hs

/-- The recorder can sit in STARTING with the debounce timer armed: one
trigger from BUFFERING arms the timer, moves to STARTING and binds the
record bin, and nothing forces the first output frame to appear before
the timer deadline. -/
lemma reachable_starting_armed :
    Reachable
      { st := STARTING, binBound := true, timerArmed := true
        firstOutPending := true } := by
  have h1 : Reachable { Sys.initial with st := BUFFERING } :=
    Reachable.step Reachable.init (Step.ringbufferBound _ rfl)
  have h2 := Reachable.step h1 (Step.trigger _)
  have he : (recordDispatch { Sys.initial with st := BUFFERING }).1 =
      { st := STARTING, binBound := true, timerArmed := true
        firstOutPending := true } := by decide
  rwa [he] at h2

/-- RecordBin invariant: the session count is determined by whether the
bin is bound. -/
def RBInv (rb : RecordBinSt) : Prop :=
  rb.sessions = if rb.pipeline.isSome then 1 else 0

lemma rbInv_step {a b : RecordBinSt} (ha : RBInv a) (hs : RBStep a b) :
    RBInv b := by
  cases hs with
  | bindOk p rb2 h =>
      unfold RecordBin.bind at h
      cases hq : a.pipeline with
      | some q => rw [hq] at h; cases h
      | none =>
          rw [hq] at h
          cases h
          unfold RBInv at ha ⊢
          rw [hq] at ha
          simp at ha
          simp [ha]
  | bindFail p e h => exact ha
  | doCleanup h =>
      unfold RBInv at ha ⊢
      rw [h] at ha
      simp at ha
      simp [RecordBin.cleanup, ha]

lemma rbReachable_inv {rb : RecordBinSt} (h : RBReachable rb) : RBInv rb := by
  induction h with
  | init => rfl
  | step _ hs ih => exact rbInv_step ih hs

lemma bDeque_append_maxlen {α : Type} (d : BDeque α) (x : α) :
    (d.append x).maxlen = d.maxlen := by
  unfold BDeque.append
  split_ifs <;> rfl

lemma bDeque_append_length_le {α : Type} (d : BDeque α) (x : α)
    (h : d.items.length ≤ d.maxlen) :
    (d.append x).items.length ≤ d.maxlen := by
  unfold BDeque.append
  split_ifs with h0 hlt
  · simp
  · simpa using hlt
  · have he : d.items.length = d.maxlen := le_antisymm h (not_lt.mp hlt)
    simp
    omega

lemma bDeque_foldl_length_le {α : Type} (xs : List α) (d : BDeque α)
    (h : d.items.length ≤ d.maxlen) :
    (xs.foldl BDeque.append d).items.length ≤ d.maxlen := by
  induction xs generalizing d with
  | nil => simpa using h
  | cons x xs ih =>
      have h2 := bDeque_append_length_le d x h
      have h3 : (d.append x).items.length ≤ (d.append x).maxlen := by
        rwa [bDeque_append_maxlen]
      have h4 := ih (d.append x) h3
      rw [bDeque_append_maxlen] at h4
      simpa using h4

/-! ### Claim theorems -/

/-- Claim C1 (code bug): the synchronous record() is claimed to poll for
at most max_delay_sec and raise a timeout when no output location is
available in time.  The code compares t0 - now (never positive once the
clock has passed t0) against max_delay_sec, so with a monotone clock
and a nonnegative max_delay_sec the timeout branch is unreachable: when
no location ever becomes available the loop polls forever instead of
raising. -/
theorem c1_record_never_times_out (t0 maxDelaySec : ℚ) (clock : Nat → ℚ)
    (hclock : ∀ n, t0 ≤ clock n) (hmax : 0 ≤ maxDelaySec) :
    ∀ fuel, recordPoll t0 maxDelaySec clock (fun _ => none) fuel =
      PollOutcome.stillPolling := by
  intro fuel
  induction fuel with
  | zero => rfl
  | succ n ih =>
      have hstep : recordPollStep t0 maxDelaySec (clock n) none =
          PollOutcome.stillPolling := by
        unfold recordPollStep recordTimedOut
        have hlt : ¬ maxDelaySec < t0 - clock n := by
          have := hclock n
          intro hcon
          linarith
        simp [hlt]
      simp only [recordPoll, ih, hstep]

/-- Witness for C1 at a concrete run: clock starting at 0 and advancing
one second per iteration, max_delay_sec = 1/10, location never
available; five iterations later the loop is still polling with no
timeout raised. -/
theorem c1_record_never_times_out_witness :
    (∀ n : Nat, (0 : ℚ) ≤ (n : ℚ)) ∧ (0 : ℚ) ≤ 1 / 10 ∧
    recordPoll 0 (1 / 10) (fun n => (n : ℚ)) (fun _ => none) 5 =
      PollOutcome.stillPolling := by
  refine ⟨fun n => Nat.cast_nonneg n, by norm_num, ?_⟩
  exact c1_record_never_times_out 0 (1 / 10) (fun n => (n : ℚ))
    (fun n => Nat.cast_nonneg n) (by norm_num) 5

/-- Claim C2: in every reachable RecordBin state at most one writer
session is attached, and a bind attempted while one is bound fails with
ValueError("Already bound!") instead of attaching a second session. -/
theorem c2_at_most_one_session {rb : RecordBinSt} (h : RBReachable rb) :
    rb.sessions ≤ 1 ∧
    ∀ p : Nat, rb.pipeline.isSome = true →
      RecordBin.bind rb p = Except.error "Already bound!" := by
  have hi := rbReachable_inv h
  constructor
  · unfold RBInv at hi
    split at hi <;> omega
  · intro p hp
    unfold RecordBin.bind
    cases hq : rb.pipeline with
    | none => rw [hq] at hp; cases hp
    | some q => rfl

/-- Witness for C2 at the state reached by a single successful bind:
the session count is 1 and a second bind errors out. -/
theorem c2_at_most_one_session_witness :
    RBReachable { pipeline := some 0, sessions := 1 } ∧
    ({ pipeline := some 0, sessions := 1 } : RecordBinSt).sessions ≤ 1 ∧
    RecordBin.bind { pipeline := some 0, sessions := 1 } 1 =
      Except.error "Already bound!" := by
  have h1 : RecordBin.bind RecordBin.initial 0 =
      Except.ok { pipeline := some 0, sessions := 1 } := rfl
  have hr : RBReachable { pipeline := some 0, sessions := 1 } :=
    RBReachable.step RBReachable.init (RBStep.bindOk RecordBin.initial 0 _ h1)
  exact ⟨hr, (c2_at_most_one_session hr).1,
    (c2_at_most_one_session hr).2 1 rfl⟩

/-- Claim C3 is refuted as stated: the debounce timer can fire while the
recorder is still STARTING (the trigger from BUFFERING arms the timer
and moves to STARTING, and nothing forces the record bin's first output
frame to appear within the 2 x window deadline); in that reachable
armed state the handler raises NotImplementedError instead of
transitioning to FINISHING and sending end-of-segment, although
STARTING is not BUFFERING. -/
theorem c3_timer_fire_counterexample :
    Reachable
      { st := STARTING, binBound := true, timerArmed := true
        firstOutPending := true } ∧
    STARTING ≠ BUFFERING ∧
    onWindowTimeout STARTING = TimeoutOutcome.unhandledState ∧
    onWindowTimeout STARTING ≠ TimeoutOutcome.finishAndSendEos :=
  ⟨reachable_starting_armed, by decide, by decide, by decide⟩

/-- Claim C3 (amended): in every reachable recorder state with the
debounce timer armed, the state is BUFFERING, STARTING or RECORDING; a
firing in BUFFERING is a no-op on the recorder state with no
end-of-segment sent, a firing in RECORDING moves the state to FINISHING
and sends end-of-segment via record_bin.send_eos, and a firing in
STARTING raises an unhandled-state error. -/
theorem c3_timer_fire (s : Sys) (hr : Reachable s) (ha : s.timerArmed = true) :
    (s.st = BUFFERING ∧ onWindowTimeout s.st = TimeoutOutcome.noopBuffering ∧
      applyWindowTimeout s = { s with timerArmed := false }) ∨
    (s.st = RECORDING ∧ onWindowTimeout s.st = TimeoutOutcome.finishAndSendEos ∧
      applyWindowTimeout s = { s with st := FINISHING, timerArmed := false }) ∨
    (s.st = STARTING ∧ onWindowTimeout s.st = TimeoutOutcome.unhandledState) := by
  rcases (reachable_sysInv hr).2 ha with hb | hb | hb
  · left
    have ho : onWindowTimeout BUFFERING = TimeoutOutcome.noopBuffering := by
      decide
    refine ⟨hb, by rw [hb, ho], ?_⟩
    unfold applyWindowTimeout
    rw [hb, ho]
  · right; right
    have ho : onWindowTimeout STARTING = TimeoutOutcome.unhandledState := by
      decide
    exact ⟨hb, by rw [hb, ho]⟩
  · right; left
    have ho : onWindowTimeout RECORDING = TimeoutOutcome.finishAndSendEos := by
      decide
    refine ⟨hb, by rw [hb, ho], ?_⟩
    unfold applyWindowTimeout
    rw [hb, ho]

/-- The reachable armed state used to instantiate the C3 theorem. -/
def armedStarting : Sys :=
  { st := STARTING, binBound := true, timerArmed := true
    firstOutPending := true }

/-- Witness for C3 (amended) at the reachable armed STARTING state. -/
theorem c3_timer_fire_witness :
    armedStarting.timerArmed = true ∧
    ((armedStarting.st = BUFFERING ∧
        onWindowTimeout armedStarting.st = TimeoutOutcome.noopBuffering ∧
        applyWindowTimeout armedStarting =
          { armedStarting with timerArmed := false }) ∨
      (armedStarting.st = RECORDING ∧
        onWindowTimeout armedStarting.st = TimeoutOutcome.finishAndSendEos ∧
        applyWindowTimeout armedStarting =
          { armedStarting with st := FINISHING, timerArmed := false }) ∨
      (armedStarting.st = STARTING ∧
        onWindowTimeout armedStarting.st = TimeoutOutcome.unhandledState)) :=
  ⟨rfl, c3_timer_fire armedStarting reachable_starting_armed rfl⟩

/-- Claim C4 is refuted as stated: on writer-session completion in
FINISHING with a registered callback, the handler's effects are exactly
moving to BUFFERING and scheduling the callback with the location; the
specified effect list additionally requires recording the segment's
actual runtime, which the code never does. -/
theorem c4_on_finished_counterexample :
    onRecordbinEos FINISHING true (some "video.webm") =
      Except.ok [EosEffect.setState BUFFERING,
        EosEffect.scheduleOnFinished (some "video.webm")] ∧
    onRecordbinEos FINISHING true (some "video.webm") ≠
      Except.ok (specOnFinishedEffects (some "video.webm")) := by
  constructor
  · rfl
  · intro h
    cases h

/-- Claim C4 (amended): on writer-session completion in FINISHING the
recorder moves to BUFFERING and, when a caller callback is registered,
schedules it asynchronously with the output location; no segment
runtime is recorded. -/
theorem c4_on_finished (loc : Option String) (callbackSet : Bool) :
    onRecordbinEos FINISHING callbackSet loc =
      Except.ok ([EosEffect.setState BUFFERING] ++
        (if callbackSet then [EosEffect.scheduleOnFinished loc] else [])) ∧
    ∀ effs, onRecordbinEos FINISHING callbackSet loc = Except.ok effs →
      EosEffect.recordRuntime ∉ effs := by
  have h1 : onRecordbinEos FINISHING callbackSet loc =
      Except.ok ([EosEffect.setState BUFFERING] ++
        (if callbackSet then [EosEffect.scheduleOnFinished loc] else [])) := by
    unfold onRecordbinEos
    cases callbackSet <;> rfl
  refine ⟨h1, ?_⟩
  intro effs heq
  rw [h1] at heq
  injection heq with h2
  rw [← h2]
  cases callbackSet <;> simp

/-- Claim C5: re-arming the debounce timer schedules its firing exactly
2 x window_size_sec after the arming instant, and the recorder's timer
setter first cancels the previously scheduled (still waiting) timer and
then installs the new one. -/
theorem c5_timer_rearm (w now : ℚ) (t : PBThread)
    (hw : flagIn PB_WAITING t.state = true) :
    (resetStopRecordingTimer w now).fireTime = now + 2 * w ∧
    ∃ t2 : PBThread,
      PBThread.cancel t = Except.ok t2 ∧ t2.cancelled = true ∧
      setStopRecordingTimer (some t)
          (some (resetStopRecordingTimer w now).thread) =
        { old := some t2
          slot := some (resetStopRecordingTimer w now).thread
          swallowedCancelError := false
          actions := [SetterAction.cancelOld, SetterAction.install] } := by
  have hc : PBThread.cancel t =
      Except.ok { t with cancelled := true, state := t.state.lor PB_CANCELLED } := by
    unfold PBThread.cancel
    rw [hw]
    rfl
  refine ⟨rfl, { t with cancelled := true, state := t.state.lor PB_CANCELLED },
    hc, rfl, ?_⟩
  show (match PBThread.cancel t with
    | Except.ok t2 =>
        ({ old := some t2, slot := some (resetStopRecordingTimer w now).thread
           swallowedCancelError := false
           actions := [SetterAction.cancelOld, SetterAction.install] } : SetterResult)
    | Except.error _ =>
        { old := some t, slot := some (resetStopRecordingTimer w now).thread
          swallowedCancelError := true
          actions := [SetterAction.cancelOld, SetterAction.install] }) = _
  rw [hc]

/-- Witness for C5 at a concrete waiting timer and window size 3 armed
at instant 10: the new timer fires at 10 + 6. -/
theorem c5_timer_rearm_witness :
    flagIn PB_WAITING ({ delay := 6, state := PB_WAITING, cancelled := false } :
        PBThread).state = true ∧
    (resetStopRecordingTimer 3 10).fireTime = 10 + 2 * 3 ∧
    ∃ t2 : PBThread,
      PBThread.cancel { delay := 6, state := PB_WAITING, cancelled := false } =
        Except.ok t2 ∧ t2.cancelled = true ∧
      setStopRecordingTimer
          (some { delay := 6, state := PB_WAITING, cancelled := false })
          (some (resetStopRecordingTimer 3 10).thread) =
        { old := some t2
          slot := some (resetStopRecordingTimer 3 10).thread
          swallowedCancelError := false
          actions := [SetterAction.cancelOld, SetterAction.install] } :=
  ⟨by decide,
    c5_timer_rearm 3 10 { delay := 6, state := PB_WAITING, cancelled := false }
      (by decide)⟩

/-- Claim C6: a record() trigger dispatched in STARTING or RECORDING
only re-arms the debounce timer: the recorder state, the record bin
binding and the first-frame probe are unchanged and no error is
raised. -/
theorem c6_trigger_coalesces (s : Sys)
    (h : s.st = STARTING ∨ s.st = RECORDING) :
    recordDispatch s = ({ s with timerArmed := true }, none) := by
  rcases h with h | h <;>
    · unfold recordDispatch
      rw [h]
      rfl

/-- A concrete RECORDING state with a bound record bin, used to
instantiate the C6 theorem. -/
def recordingState : Sys :=
  { st := RECORDING, binBound := true, timerArmed := false
    firstOutPending := false }

/-- Witness for C6 at a concrete RECORDING state with a bound record
bin. -/
theorem c6_trigger_coalesces_witness :
    (recordingState.st = STARTING ∨ recordingState.st = RECORDING) ∧
    recordDispatch recordingState =
      ({ recordingState with timerArmed := true }, none) :=
  ⟨Or.inr rfl, c6_trigger_coalesces recordingState (Or.inr rfl)⟩

/-- Claim C7: for every window w and tap framerate num/den determined at
bind time, the ring buffer capacity computed on a successful bind is
ceil(w x framerate), and this is the maxlen of the frame deque the
recorder creates; in particular ceil(2 x 30) = 60. -/
theorem c7_capacity (w : ℚ) (num den : ℤ) (hw : 0 < w) (hnum : 0 < num)
    (hden : 0 < den) :
    (initializeDeque w (some (num, den)) =
      Except.ok (ringbufferLen w ((num : ℚ) / (den : ℚ)),
        (num : ℚ) / (den : ℚ)) ∧
    ∃ r : RingbufferBindOk,
      onRingbufferBound DETTACHED (ringbufferLen w ((num : ℚ) / (den : ℚ)))
          ((num : ℚ) / (den : ℚ)) = Except.ok r ∧
      (r.deque.maxlen : ℤ) = Int.ceil (w * ((num : ℚ) / (den : ℚ)))) ∧
    ringbufferLen 2 30 = 60 := by
  have hden0 : den ≠ 0 := ne_of_gt hden
  have hf : (0 : ℚ) < (num : ℚ) / (den : ℚ) := by
    apply div_pos
    · exact_mod_cast hnum
    · exact_mod_cast hden
  have hceil : 0 < ringbufferLen w ((num : ℚ) / (den : ℚ)) := by
    unfold ringbufferLen
    exact Int.ceil_pos.mpr (mul_pos hw hf)
  refine ⟨⟨?_, ?_⟩, ?_⟩
  · unfold initializeDeque
    simp [hden0]
  · refine ⟨{ state := BUFFERING
              deque := { maxlen := (ringbufferLen w ((num : ℚ) / (den : ℚ))).toNat
                         items := [] }
              framerate := (num : ℚ) / (den : ℚ) }, ?_, ?_⟩
    · unfold onRingbufferBound
      rw [if_neg (by decide), if_neg (not_lt.mpr hceil.le)]
    · show ((ringbufferLen w ((num : ℚ) / (den : ℚ))).toNat : ℤ) = _
      rw [Int.toNat_of_nonneg hceil.le]
      rfl
  · unfold ringbufferLen
    norm_num

/-- Witness for C7 at window 2 s and framerate 30/1: the capacity is
ceil(2 x 30) = 60 frames. -/
theorem c7_capacity_witness :
    (0 : ℚ) < 2 ∧ (0 : ℤ) < 30 ∧ (0 : ℤ) < 1 ∧
    ((initializeDeque 2 (some (30, 1)) =
        Except.ok (ringbufferLen 2 (((30 : ℤ) : ℚ) / ((1 : ℤ) : ℚ)),
          ((30 : ℤ) : ℚ) / ((1 : ℤ) : ℚ)) ∧
      ∃ r : RingbufferBindOk,
        onRingbufferBound DETTACHED
            (ringbufferLen 2 (((30 : ℤ) : ℚ) / ((1 : ℤ) : ℚ)))
            (((30 : ℤ) : ℚ) / ((1 : ℤ) : ℚ)) = Except.ok r ∧
        (r.deque.maxlen : ℤ) = Int.ceil ((2 : ℚ) * (((30 : ℤ) : ℚ) / ((1 : ℤ) : ℚ)))) ∧
      ringbufferLen 2 30 = 60) := by
  refine ⟨by norm_num, by norm_num, by norm_num, ?_⟩
  exact c7_capacity 2 30 1 (by norm_num) (by norm_num) (by norm_num)

/-- Claim C8: frame insertion keeps the ring buffer length at or below
its capacity, and an insertion into a buffer at capacity evicts exactly
the oldest frame while appending the new one. -/
theorem c8_ring_semantics (d : BDeque Frame) (xs : List Frame)
    (h : d.items.length ≤ d.maxlen) :
    (xs.foldl (fun dq fr => (onNewSample dq (some fr)).1) d).items.length ≤
      d.maxlen ∧
    ∀ fr : Frame, d.items.length = d.maxlen → 0 < d.maxlen →
      (onNewSample d (some fr)).1.items = d.items.drop 1 ++ [fr] ∧
      (onNewSample d (some fr)).1.items.length = d.maxlen := by
  constructor
  · have he : (fun (dq : BDeque Frame) (fr : Frame) =>
        (onNewSample dq (some fr)).1) = BDeque.append := by
      funext dq fr
      rfl
    rw [he]
    exact bDeque_foldl_length_le xs d h
  · intro fr hfull hpos
    have ha : (onNewSample d (some fr)).1 = d.append fr := rfl
    rw [ha]
    unfold BDeque.append
    rw [if_neg (by omega), if_neg (by omega)]
    refine ⟨rfl, ?_⟩
    simp
    omega

/-- Witness for C8 at a capacity-2 buffer holding frames 10 and 11:
inserting frame 12 evicts frame 10 only, and a longer insertion
sequence never grows the buffer past 2. -/
theorem c8_ring_semantics_witness :
    (({ maxlen := 2, items := [10, 11] } : BDeque Frame).items.length ≤ 2) ∧
    (([12, 13, 14] : List Frame).foldl
        (fun dq fr => (onNewSample dq (some fr)).1)
        { maxlen := 2, items := [10, 11] }).items.length ≤ 2 ∧
    (onNewSample ({ maxlen := 2, items := [10, 11] } : BDeque Frame)
        (some 12)).1.items = [11, 12] := by
  have h := c8_ring_semantics { maxlen := 2, items := [10, 11] } [12, 13, 14]
    (by decide)
  refine ⟨by decide, h.1, ?_⟩
  have h2 := (h.2 12 rfl (by decide)).1
  rw [h2]
  rfl

/-- Claim C9 is refuted as stated: a cancel on a timer that has left its
waiting phase does raise CancelNotInWaiting without mutating it, but
the recorder's stop_recording_timer setter catches that exception with
a bare pass, so the condition is silently swallowed there rather than
always surfaced. -/
theorem c9_cancel_counterexample :
    PBThread.cancel { delay := 4, state := PB_RUNNING, cancelled := false } =
      Except.error () ∧
    (setStopRecordingTimer
        (some { delay := 4, state := PB_RUNNING, cancelled := false })
        none).swallowedCancelError = true := by
  constructor
  · rfl
  · rfl

/-- Claim C9 (amended): a cancel attempted on a timer not in its waiting
phase raises CancelNotInWaiting before any assignment, leaving the
timer unchanged; the recorder's stop_recording_timer setter catches
that exception with a bare pass — silently, reporting nothing — and
still installs the new value. -/
theorem c9_cancel_not_in_waiting (t : PBThread)
    (h : flagIn PB_WAITING t.state = false) :
    PBThread.cancel t = Except.error () ∧
    ∀ v : Option PBThread,
      setStopRecordingTimer (some t) v =
        { old := some t, slot := v, swallowedCancelError := true
          actions := [SetterAction.cancelOld, SetterAction.install] } := by
  have hc : PBThread.cancel t = Except.error () := by
    unfold PBThread.cancel
    rw [h]
    rfl
  refine ⟨hc, fun v => ?_⟩
  show (match PBThread.cancel t with
    | Except.ok t2 =>
        ({ old := some t2, slot := v, swallowedCancelError := false
           actions := [SetterAction.cancelOld, SetterAction.install] } : SetterResult)
    | Except.error _ =>
        { old := some t, slot := v, swallowedCancelError := true
          actions := [SetterAction.cancelOld, SetterAction.install] }) = _
  rw [hc]

/-- Witness for C9 (amended) at a timer in its running phase. -/
theorem c9_cancel_not_in_waiting_witness :
    flagIn PB_WAITING ({ delay := 4, state := PB_RUNNING, cancelled := false } :
        PBThread).state = false ∧
    PBThread.cancel { delay := 4, state := PB_RUNNING, cancelled := false } =
      Except.error () ∧
    setStopRecordingTimer
        (some { delay := 4, state := PB_RUNNING, cancelled := false }) none =
      { old := some { delay := 4, state := PB_RUNNING, cancelled := false }
        slot := none, swallowedCancelError := true
        actions := [SetterAction.cancelOld, SetterAction.install] } := by
  have h := c9_cancel_not_in_waiting
    { delay := 4, state := PB_RUNNING, cancelled := false } (by decide)
  exact ⟨by decide, h.1, h.2 none⟩

/-- Claim C10: the ring buffer bind-success callback raises on any
recorder state other than DETTACHED; in DETTACHED it creates the frame
deque with maxlen equal to the reported capacity, stores the framerate
and moves the state to BUFFERING. -/
theorem c10_ringbuffer_bound (st : Nat) (len : ℤ) (f : ℚ) (hlen : 0 ≤ len) :
    onRingbufferBound st len f =
      if st = DETTACHED then
        Except.ok
          { state := BUFFERING
            deque := { maxlen := len.toNat, items := [] }
            framerate := f }
      else Except.error "NotImplementedError" := by
  unfold onRingbufferBound
  by_cases h : st = DETTACHED
  · rw [if_pos h, if_neg (by simpa using h), if_neg (not_lt.mpr hlen)]
  · rw [if_neg h, if_pos (by simpa using h)]

/-- Witness for C10: with capacity 60 and framerate 30, the callback
raises in RECORDING and succeeds in DETTACHED with a maxlen-60 deque. -/
theorem c10_ringbuffer_bound_witness :
    (0 : ℤ) ≤ 60 ∧
    onRingbufferBound RECORDING 60 30 =
      Except.error "NotImplementedError" ∧
    onRingbufferBound DETTACHED 60 30 =
      Except.ok
        { state := BUFFERING
          deque := { maxlen := 60, items := [] }
          framerate := 30 } := by
  have h1 := c10_ringbuffer_bound RECORDING 60 30 (by decide)
  have h2 := c10_ringbuffer_bound DETTACHED 60 30 (by decide)
  rw [if_neg (by decide)] at h1
  rw [if_pos rfl] at h2
  exact ⟨by decide, h1, h2⟩

end Pythiags
